import Mathlib

/-!
Verification of the voice intent-classification and contextual-response
pipeline of the cardiovascular risk assessment app.

The frontend code (`src/unnamed/part_000`, the "Enhanced Voice UI" screen, and
`src/frontend/app/voice-assistant.tsx`) is embedded faithfully: the regex rule
table `voiceCommands`, the first-match dispatcher `processVoiceCommand`, the
intent actions `executeVoiceAction`, the keyword fallback
`processNaturalLanguageQuery`, and the substring-based command matcher of the
voice-assistant screen.

JavaScript regular expressions of the shape `/a.*b|c/i` under `.test` are
modelled on `List Char`: the `/i` flag is modelled by mapping `Char.toLower`
over the input (all pattern literals are lower-case ASCII), and `.` (which
matches any character except a line terminator) is modelled by splitting the
input at line terminators and searching for the literals, in order, inside a
single segment.  `transcript.includes(sub)` is modelled by `containsSub`.
`Math.floor(Math.random() * tips.length)`, which always yields an index in
`[0, tips.length)`, is modelled by an arbitrary `rand : Nat` reduced modulo
the list length.  JavaScript falsiness of the number `0` in
`riskData?.heart_attack || 'moderate'` is modelled explicitly.

The backend NLP response envelope (intent/confidence/entities/priority/
suggested_actions) is described by the spec but its implementation
(`voice_nlp_service.py`, referenced by `VOICE_SYSTEM_ARCHITECTURE.md`) is not
part of the sources; those parts are modelled from the spec and marked
`Modelled from the spec:` in their doc comments.
-/

/-- Shorthand for the character list of a pattern literal. -/
def w (s : String) : List Char := s.data

/-- Decides whether `needle` occurs as a contiguous substring of `hay`
(the model of JavaScript `hay.includes(needle)`). -/
def containsSub (needle : List Char) : List Char → Bool
  | [] => needle.isEmpty
  | c :: t => needle.isPrefixOf (c :: t) || containsSub needle t

/-- Finds the first occurrence of the literal `l` and returns the remaining
characters after it, or `none` when `l` does not occur. -/
def findLit (l : List Char) : List Char → Option (List Char)
  | [] => if l.isEmpty then some [] else none
  | c :: cs =>
    if l.isPrefixOf (c :: cs) then some ((c :: cs).drop l.length)
    else findLit l cs

/-- Decides whether the literals occur in the given order (with arbitrary
gaps) inside the character list: the model of `l₁.*l₂.*…` searched within one
line segment. -/
def seqContains : List (List Char) → List Char → Bool
  | [], _ => true
  | l :: ls, cs =>
    match findLit l cs with
    | none => false
    | some rest => seqContains ls rest

/-- Line terminators that the JavaScript regex `.` does not match. -/
def isLineTerminator (c : Char) : Bool :=
  c = '\n' || c = '\r' || c = '\u2028' || c = '\u2029'

/-- Splits a character list at line terminators (the terminators themselves
are dropped). -/
def lineSegments : List Char → List (List Char)
  | [] => [[]]
  | c :: t =>
    match lineSegments t with
    | [] => [[c]]
    | h :: r => if isLineTerminator c then [] :: h :: r else (c :: h) :: r

/-- One alternative of a pattern, `l₁.*l₂.*…`, matches the text when its
literals occur in order within a single line segment. -/
def altMatch (alt : List (List Char)) (cs : List Char) : Bool :=
  (lineSegments cs).any (seqContains alt)

/-- A pattern is a disjunction of alternatives; it matches when one
alternative does. -/
def patMatch (pat : List (List (List Char))) (cs : List Char) : Bool :=
  pat.any (fun alt => altMatch alt cs)

/-- The model of `pattern.test(transcript)` for a case-insensitive (`/i`)
regex: the input is lower-cased and the (lower-case) pattern is searched. -/
def patTest (pat : List (List (List Char))) (s : String) : Bool :=
  patMatch pat (s.data.map Char.toLower)

namespace EnhancedVoiceUI

/-- One row of the `voiceCommands` table of `src/unnamed/part_000`. -/
structure VoiceCommand where
  pattern : List (List (List Char))
  action : String
  description : String
  deriving DecidableEq

/-- The pattern of the `emergency_help` row: `/emergency|help.*urgent|call.*doctor/i`. -/
def emergencyPattern : List (List (List Char)) :=
  [[w "emergency"], [w "help", w "urgent"], [w "call", w "doctor"]]

/-- The static ordered rule table `voiceCommands` of `src/unnamed/part_000`,
lines 61-71. -/
def voiceCommands : List VoiceCommand :=
  [ ⟨[[w "show", w "risk"], [w "what", w "risk"], [w "current", w "risk"]],
      "show_risk", "Show current risk levels"⟩,
    ⟨[[w "start", w "assessment"], [w "new", w "assessment"], [w "take", w "test"]],
      "start_assessment", "Start new assessment"⟩,
    ⟨[[w "explain", w "result"], [w "what", w "mean"], [w "help", w "understand"]],
      "explain_results", "Explain risk results"⟩,
    ⟨[[w "medication", w "remind"], [w "take", w "medicine"], [w "pills"]],
      "medication_reminder", "Set medication reminder"⟩,
    ⟨emergencyPattern, "emergency_help", "Emergency assistance"⟩,
    ⟨[[w "next", w "question"], [w "continue"], [w "proceed"]],
      "next_question", "Continue to next question"⟩,
    ⟨[[w "repeat", w "result"], [w "say", w "again"], [w "repeat"]],
      "repeat_last", "Repeat last result"⟩,
    ⟨[[w "lifestyle", w "tip"], [w "health", w "advice"], [w "improve", w "health"]],
      "lifestyle_tips", "Get health tips"⟩,
    ⟨[[w "stop", w "listening"], [w "pause"], [w "quiet"]],
      "stop_listening", "Stop voice assistant"⟩ ]

/-- The `RiskData` interface of `src/unnamed/part_000` (percent scores are
integers produced by `Math.round(p * 100)`). -/
structure RiskData where
  overall_score : Nat
  heart_attack : Nat
  stroke : Nat
  heart_failure : Nat
  arrhythmia : Nat
  last_updated : String
  trend : String
  deriving DecidableEq

/-- The matched-command lookup of `processVoiceCommand`:
`voiceCommands.find(cmd => cmd.pattern.test(transcript))`. -/
def matchedCommand (transcript : String) : Option VoiceCommand :=
  voiceCommands.find? (fun cmd => patTest cmd.pattern transcript)

/-- The fallback message of `showCurrentRisk` when no risk data is loaded. -/
def noRiskDataResponse : String :=
  "I don\x27t have your current risk data available. Would you like to start a new assessment to get updated risk calculations?"

/-- The `showCurrentRisk` handler of `src/unnamed/part_000`, lines 308-315,
as a pure function from the component state `riskData` to the spoken reply. -/
def showCurrentRisk (riskData : Option RiskData) : String :=
  match riskData with
  | some rd =>
    "Your overall cardiovascular risk score is " ++ toString rd.overall_score ++
    "%. Breaking this down: Heart attack risk is " ++ toString rd.heart_attack ++
    "%, stroke risk is " ++ toString rd.stroke ++
    "%, heart failure risk is " ++ toString rd.heart_failure ++
    "%, and arrhythmia risk is " ++ toString rd.arrhythmia ++
    "%. Your risk trend is currently " ++ rd.trend ++
    ". Would you like me to explain what these numbers mean?"
  | none => noRiskDataResponse

/-- The static explanation text of `explainLatestResults`. -/
def explainLatestResults : String :=
  "Your cardiovascular risk assessment uses advanced machine learning to analyze over 20 health factors. The system looks at things like your age, blood pressure, cholesterol levels, family history, lifestyle habits, and more. Each factor is weighted based on medical research to give you personalized risk predictions. The percentages tell you your statistical likelihood of developing each condition. Would you like me to focus on any specific risk factor?"

/-- The `repeatLastResult` handler: repeats the last assistant message, with
a graceful fallback.  A message is a `(role, text)` pair. -/
def repeatLastResult (voiceMessages : List (String × String)) : String :=
  match (voiceMessages.filter (fun m => m.1 == "assistant")).getLast? with
  | some m => "I\x27ll repeat that: " ++ m.2
  | none => "I don\x27t have a previous result to repeat. Would you like me to show your current risk levels?"

/-- The fixed tip list of `provideLifestyleTips` (lines 331-342). -/
def lifestyleTips : List String :=
  [ "Regular exercise for at least 30 minutes, 5 days a week can significantly reduce your cardiovascular risk.",
    "A Mediterranean-style diet rich in fruits, vegetables, whole grains, and healthy fats is excellent for heart health.",
    "Managing stress through meditation, yoga, or other relaxation techniques can lower your blood pressure.",
    "Getting 7-9 hours of quality sleep each night is crucial for heart health.",
    "If you smoke, quitting is the single most important thing you can do for your cardiovascular health." ]

/-- The tip selected by `tips[Math.floor(Math.random() * tips.length)]`; the
random draw always lands in `[0, tips.length)` and is modelled by an
arbitrary `rand` reduced modulo the length. -/
def selectedLifestyleTip (rand : Nat) : String :=
  lifestyleTips.getD (rand % lifestyleTips.length) ""

/-- The reply of `provideLifestyleTips`. -/
def provideLifestyleTips (rand : Nat) : String :=
  "Here\x27s a personalized health tip: " ++ selectedLifestyleTip rand ++
  " Would you like more specific advice for your situation?"

/-- The generic clarifying reply of `processNaturalLanguageQuery` when no
keyword is recognized. -/
def genericHelpResponse : String :=
  "I\x27m here to help with your heart health questions. You can ask me about your risk levels, request health tips, start a new assessment, or ask for explanations of your results. What would you like to know?"

/-- The level shown for the heart-attack keyword branch:
`riskData?.heart_attack || 'moderate'` — note that a stored score of `0` is
falsy in JavaScript and also yields `'moderate'`. -/
def heartAttackLevel (riskData : Option RiskData) : String :=
  match riskData with
  | some rd => if rd.heart_attack = 0 then "moderate" else toString rd.heart_attack
  | none => "moderate"

/-- The level shown for the stroke keyword branch: `riskData?.stroke || 'low'`. -/
def strokeLevel (riskData : Option RiskData) : String :=
  match riskData with
  | some rd => if rd.stroke = 0 then "low" else toString rd.stroke
  | none => "low"

/-- The keyword-based fallback `processNaturalLanguageQuery` of
`src/unnamed/part_000`, lines 285-306, as a pure function to the reply text. -/
def processNaturalLanguageQuery (query : String) (riskData : Option RiskData)
    (rand : Nat) : String :=
  let lowerQuery := query.data.map Char.toLower
  if containsSub (w "heart attack") lowerQuery then
    "Based on your latest assessment, your heart attack risk is " ++
    heartAttackLevel riskData ++
    " level. This is calculated using multiple factors including your age, lifestyle, and medical history. Would you like me to explain which factors are contributing most to this risk?"
  else if containsSub (w "stroke") lowerQuery then
    "Your stroke risk is currently " ++ strokeLevel riskData ++
    " level. Key factors that influence stroke risk include blood pressure, age, and lifestyle habits. Keep up the good work managing your cardiovascular health!"
  else if containsSub (w "improve") lowerQuery || containsSub (w "better") lowerQuery then
    provideLifestyleTips rand
  else
    genericHelpResponse

/-- The component state read by the voice actions. -/
structure VoiceState where
  riskData : Option RiskData
  voiceMessages : List (String × String)
  rand : Nat

/-- Observable effects of `executeVoiceAction`. -/
inductive Event where
  | say (text : String)
  | healthAlert (text severity kind : String)
  | navigate (route : String)
  | stopListening
  deriving DecidableEq

/-- The emergency reply of `executeVoiceAction`, case `emergency_help`
(lines 263-266). -/
def emergencyResponse : String :=
  "If you\x27re experiencing a medical emergency, please call 911 immediately. For non-urgent medical questions, contact your healthcare provider."

/-- The `executeVoiceAction` dispatcher of `src/unnamed/part_000`,
lines 247-283, as a pure function to the list of observable effects. -/
def executeVoiceAction (action : String) (transcript : String)
    (st : VoiceState) : List Event :=
  if action = "show_risk" then
    [Event.say (showCurrentRisk st.riskData)]
  else if action = "start_assessment" then
    [Event.say "Starting a new heart health assessment for you.",
     Event.navigate "/assessment"]
  else if action = "explain_results" then
    [Event.say explainLatestResults]
  else if action = "medication_reminder" then
    [Event.healthAlert "Reminder: Take your prescribed heart medication" "medium" "medication",
     Event.say "I\x27ve added a medication reminder for you. Don\x27t forget to take your prescribed heart medication."]
  else if action = "emergency_help" then
    [Event.say emergencyResponse,
     Event.healthAlert "Emergency resources available if needed" "high" "emergency"]
  else if action = "next_question" then
    [Event.say "Let\x27s continue. What else would you like to know about your heart health?"]
  else if action = "repeat_last" then
    [Event.say (repeatLastResult st.voiceMessages)]
  else if action = "lifestyle_tips" then
    [Event.say (provideLifestyleTips st.rand)]
  else if action = "stop_listening" then
    [Event.stopListening, Event.say "Voice assistant paused. Tap the microphone to resume."]
  else
    [Event.say (processNaturalLanguageQuery transcript st.riskData st.rand)]

/-- The `processVoiceCommand` entry point of `src/unnamed/part_000`,
lines 226-245: first matching table row wins, otherwise the natural-language
fallback runs. -/
def processVoiceCommand (transcript : String) (st : VoiceState) : List Event :=
  match matchedCommand transcript with
  | some cmd => executeVoiceAction cmd.action transcript st
  | none => [Event.say (processNaturalLanguageQuery transcript st.riskData st.rand)]

end EnhancedVoiceUI

namespace VoiceAssistant

/-- One entry of the `voiceCommands` mapping of
`src/frontend/app/voice-assistant.tsx` (lines 45-81); the `action` closure is
represented by a descriptive tag. -/
structure VoiceCommand where
  command : String
  actionTag : String
  description : String
  deriving DecidableEq

/-- The registered command phrases of `voice-assistant.tsx`. -/
def voiceCommands : List VoiceCommand :=
  [ ⟨"start assessment", "push /assessment", "Begin a new heart health assessment"⟩,
    ⟨"show risk monitor", "push /risk-monitor", "View real-time risk monitoring"⟩,
    ⟨"view history", "push /history", "Check your assessment history"⟩,
    ⟨"go home", "push /", "Return to home dashboard"⟩,
    ⟨"what is my heart attack risk", "getLatestRisk heart_attack", "Get your current heart attack risk level"⟩,
    ⟨"explain my results", "explainLatestResults", "Get AI explanation of your latest assessment"⟩,
    ⟨"give me health tips", "getPersonalizedTips", "Receive personalized health recommendations"⟩ ]

/-- The model of JavaScript `s.includes(sub)`. -/
def strIncludes (s sub : String) : Bool :=
  containsSub sub.data s.data

/-- The matched-command lookup of `processVoiceCommand` (lines 188-204):
`voiceCommands.find(cmd => command.includes(cmd.command) || cmd.command.includes(command))`. -/
def matchedCommand (command : String) : Option VoiceCommand :=
  voiceCommands.find? (fun cmd =>
    strIncludes command cmd.command || strIncludes cmd.command command)

/-- The simulated AI health-coach reply of `getAIHealthCoachResponse`. -/
structure AIResponse where
  message : String
  action : Option String
  deriving DecidableEq

/-- The `getAIHealthCoachResponse` keyword chain of `voice-assistant.tsx`,
lines 228-285. -/
def getAIHealthCoachResponse (query : String) : AIResponse :=
  let lowerQuery := query.data.map Char.toLower
  if containsSub (w "heart attack") lowerQuery || containsSub (w "heart risk") lowerQuery then
    ⟨"Based on your latest assessment, your heart attack risk is currently at a medium level. This is primarily influenced by factors like cholesterol levels and lifestyle habits. Would you like specific recommendations to reduce this risk?",
     some "show_heart_attack_details"⟩
  else if containsSub (w "stroke") lowerQuery || containsSub (w "brain") lowerQuery then
    ⟨"Your stroke risk appears to be in the low category, which is great news! Your blood pressure management and overall cardiovascular health are contributing positively. Keep up the good work with your current lifestyle.",
     some "show_stroke_details"⟩
  else if containsSub (w "tips") lowerQuery || containsSub (w "advice") lowerQuery || containsSub (w "help me") lowerQuery then
    ⟨"Here are your top 3 personalized recommendations: First, consider increasing your weekly exercise to at least 150 minutes. Second, focus on reducing sodium intake to help with blood pressure. Third, ensure you\x27re getting 7-8 hours of quality sleep nightly.",
     some "show_personalized_tips"⟩
  else if containsSub (w "explain") lowerQuery || containsSub (w "what does") lowerQuery || containsSub (w "mean") lowerQuery then
    ⟨"Your cardiovascular risk assessment uses machine learning to analyze 22 different health factors. The system looks at things like your age, blood pressure, cholesterol, lifestyle habits, and family history to calculate your risk for different heart conditions.",
     some "show_explanation"⟩
  else if containsSub (w "improve") lowerQuery || containsSub (w "better") lowerQuery || containsSub (w "reduce risk") lowerQuery then
    ⟨"Great question! Based on your profile, the most impactful changes would be: quitting smoking if applicable, which could reduce your risk by up to 15%, increasing physical activity could lower it by 8%, and improving your diet could provide a 6% reduction.",
     some "show_improvement_plan"⟩
  else if containsSub (w "emergency") lowerQuery || containsSub (w "urgent") lowerQuery || containsSub (w "call doctor") lowerQuery then
    ⟨"If you\x27re experiencing chest pain, shortness of breath, or other concerning symptoms, please seek immediate medical attention or call emergency services. For non-urgent questions, I recommend scheduling an appointment with your healthcare provider.",
     some "show_emergency_info"⟩
  else if containsSub (w "help") lowerQuery || containsSub (w "commands") lowerQuery then
    ⟨"I can help you with: checking your heart risks, explaining assessment results, providing health tips, starting new assessments, or navigating the app. Just speak naturally - for example, say \x27What\x27s my heart attack risk?\x27 or \x27Give me health advice\x27.",
     some "show_help"⟩
  else
    ⟨"I understand you\x27re asking about your heart health. Could you be more specific? You can ask about your risk levels, request health tips, or say \x27help\x27 to see what I can do for you.",
     none⟩

/-- The outcome of `processVoiceCommand`: either a matched command is
executed (with its spoken confirmation), or the query falls through to the
conversational handler. -/
inductive ProcessResult where
  | executed (cmd : VoiceCommand) (response : String)
  | aiQuery (response : AIResponse)
  deriving DecidableEq

/-- The `processVoiceCommand` flow of `voice-assistant.tsx`, lines 188-204. -/
def processVoiceCommand (command : String) : ProcessResult :=
  match matchedCommand command with
  | some cmd => ProcessResult.executed cmd ("Executing: " ++ cmd.description)
  | none => ProcessResult.aiQuery (getAIHealthCoachResponse command)

/-- The fixed tip list of `getPersonalizedTips` (lines 332-345). -/
def personalizedTips : List String :=
  [ "Aim for 30 minutes of moderate exercise 5 days a week",
    "Limit sodium to less than 2,300mg daily",
    "Include omega-3 rich fish twice weekly",
    "Practice stress-reduction techniques daily",
    "Monitor your blood pressure regularly" ]

/-- The tip selected by `tips[Math.floor(Math.random() * tips.length)]`. -/
def selectedPersonalizedTip (rand : Nat) : String :=
  personalizedTips.getD (rand % personalizedTips.length) ""

/-- The reply of `getPersonalizedTips`. -/
def getPersonalizedTips (rand : Nat) : String :=
  "Here\x27s a personalized tip: " ++ selectedPersonalizedTip rand ++
  ". Would you like more specific advice for your risk profile?"

end VoiceAssistant

namespace NLP

/-- Modelled from the spec: the priority tag of an `NLPResponse`
(section 3: one of low, medium, high, critical/urgent). -/
inductive Priority where
  | low
  | medium
  | high
  | critical
  deriving DecidableEq

/-- Modelled from the spec: one per-condition entry of `context.risk_data`
(section 8 example: `{probability: 0.44, risk_level: "Medium"}`). -/
structure RiskEntry where
  probability : ℚ
  risk_level : String
  deriving DecidableEq

/-- Modelled from the spec: the caller-supplied `ConversationContext`
(section 3): risk scores per condition, cosmetic profile hints, and prior
conversation snippets.  The core only reads it. -/
structure ConversationContext where
  risk_data : List (String × RiskEntry)
  user_profile : List (String × String)
  conversation_history : List String

/-- The empty context `{}`. -/
def emptyContext : ConversationContext := ⟨[], [], []⟩

/-- Modelled from the spec: the `NLPResponse` envelope (section 3). -/
structure NLPResponse where
  intent : String
  confidence : ℚ
  entities : List (String × String)
  response_text : String
  suggested_actions : List String
  should_speak : Bool
  priority : Priority

/-- Modelled from the spec: the fixed per-rule confidence constant
(section 4.1 gives 0.9 as the example; the concrete magic numbers live in the
missing backend `voice_nlp_service.py`). -/
def ruleConfidence : ℚ := 9 / 10

/-- Modelled from the spec: the low fixed confidence of the `unknown`
fallback (section 4.1: e.g. 0.3). -/
def unknownConfidence : ℚ := 3 / 10

/-- Leading and trailing whitespace removal on a character list (the trim
half of the spec's normalization). -/
def trimChars (cs : List Char) : List Char :=
  (cs.dropWhile Char.isWhitespace).rdropWhile Char.isWhitespace

/-- The spec's normalization (section 4.1): lower-case, then trim. -/
def normalizeChars (cs : List Char) : List Char :=
  trimChars (cs.map Char.toLower)

/-- String-level normalization: lower-cased, trimmed text. -/
def normalizeText (s : String) : String :=
  String.mk (normalizeChars s.data)

/-- Modelled from the spec: `classify(text) -> (intent, confidence)`
(section 4.1).  It iterates the static ordered rule table — the
`voiceCommands` table of `src/unnamed/part_000` — and the first rule whose
pattern matches the normalized (lower-cased, trimmed) text wins; with no
match the intent is `unknown` with the low fixed confidence.  The backend
implementation is missing from the sources; the rule table and the
normalize-then-match order are taken from the frontend code
(`voice-assistant.tsx` normalizes the transcript before matching). -/
def classify (s : String) : String × ℚ :=
  match EnhancedVoiceUI.voiceCommands.find?
      (fun cmd => patMatch cmd.pattern (normalizeChars s.data)) with
  | some cmd => (cmd.action, ruleConfidence)
  | none => ("unknown", unknownConfidence)

/-- Modelled from the spec: the fixed condition vocabulary of the entity
extractor (section 4.2), keyword and canonical entity value. -/
def conditionKeywords : List (String × String) :=
  [("heart attack", "heart_attack"), ("heart failure", "heart_failure"),
   ("stroke", "stroke"), ("arrhythmia", "arrhythmia")]

/-- Modelled from the spec: the severity vocabulary (section 4.2:
mild/moderate/severe mapped to low/medium/high). -/
def severityKeywords : List (String × String) :=
  [("mild", "low"), ("moderate", "medium"), ("severe", "high")]

/-- Modelled from the spec: `extract(text) -> EntityMap` (section 4.2): scan
the lower-cased text for the fixed vocabularies, keep at most one condition
and one severity, and omit absent keys from the map. -/
def extract (s : String) : List (String × String) :=
  (match conditionKeywords.find? (fun kw => containsSub kw.1.data (s.data.map Char.toLower)) with
   | some kw => [("condition", kw.2)]
   | none => []) ++
  (match severityKeywords.find? (fun kw => containsSub kw.1.data (s.data.map Char.toLower)) with
   | some kw => [("severity", kw.2)]
   | none => [])

/-- Modelled from the spec: the context merger's default condition
(section 4.3: fall back to "overall" when entities lack a condition). -/
def resolvedCondition (entities : List (String × String)) : String :=
  (entities.lookup "condition").getD "overall"

/-- Modelled from the spec: the per-condition risk lookup of the context
merger (section 4.3). -/
def lookupRisk (ctx : ConversationContext) (cond : String) : Option RiskEntry :=
  ctx.risk_data.lookup cond

/-- Modelled from the spec: the `show_risk` handler (section 4.4): read the
resolved condition and its probability/level; when unavailable respond with
the instruction to complete an assessment first (the fallback sentence is the
one the frontend `showCurrentRisk` uses); priority medium normally, high when
the level is "High". -/
def handleShowRisk (entities : List (String × String))
    (ctx : ConversationContext) : String × List String × Priority :=
  match lookupRisk ctx (resolvedCondition entities) with
  | some e =>
    ("Your " ++ resolvedCondition entities ++ " risk is currently " ++
       e.risk_level ++ " at " ++ toString (e.probability * 100) ++ "%.",
     [],
     if e.risk_level = "High" then Priority.high else Priority.medium)
  | none => (EnhancedVoiceUI.noRiskDataResponse, [], Priority.medium)

/-- Modelled from the spec: the `emergency_help` handler (section 4.4):
always critical priority, the response instructs the user to contact
emergency services (the frontend's emergency reply, which says to call 911),
and `suggested_actions` includes the `emergency_contact` identifier. -/
def handleEmergencyHelp : String × List String × Priority :=
  (EnhancedVoiceUI.emergencyResponse, ["emergency_contact"], Priority.critical)

/-- Modelled from the spec: the `repeat_last` handler repeats the last
conversation snippet from the context, with a graceful fallback (the
frontend's `repeatLastResult` texts). -/
def handleRepeatLast (ctx : ConversationContext) : String × List String × Priority :=
  match ctx.conversation_history.getLast? with
  | some m => ("I\x27ll repeat that: " ++ m, [], Priority.low)
  | none =>
    ("I don\x27t have a previous result to repeat. Would you like me to show your current risk levels?",
     [], Priority.low)

/-- Modelled from the spec: the `unknown`/default handler asks a clarifying
question at low priority (section 4.4); the question is the frontend's
generic help reply. -/
def handleUnknown : String × List String × Priority :=
  (EnhancedVoiceUI.genericHelpResponse, [], Priority.low)

/-- Modelled from the spec: dispatch to the matching intent handler
(section 2 control flow).  Each handler returns
(response_text, suggested_actions, priority); the response texts are the
frontend replies of `executeVoiceAction`. -/
def handleIntent (intent : String) (entities : List (String × String))
    (ctx : ConversationContext) (rand : Nat) : String × List String × Priority :=
  if intent = "show_risk" then handleShowRisk entities ctx
  else if intent = "start_assessment" then
    ("Starting a new heart health assessment for you.", [], Priority.medium)
  else if intent = "explain_results" then
    (EnhancedVoiceUI.explainLatestResults, [], Priority.medium)
  else if intent = "medication_reminder" then
    ("I\x27ve added a medication reminder for you. Don\x27t forget to take your prescribed heart medication.",
     [], Priority.medium)
  else if intent = "emergency_help" then handleEmergencyHelp
  else if intent = "next_question" then
    ("Let\x27s continue. What else would you like to know about your heart health?",
     [], Priority.low)
  else if intent = "repeat_last" then handleRepeatLast ctx
  else if intent = "lifestyle_tips" then
    (EnhancedVoiceUI.provideLifestyleTips rand, [], Priority.low)
  else if intent = "stop_listening" then
    ("Voice assistant paused. Tap the microphone to resume.", [], Priority.low)
  else handleUnknown

/-- Modelled from the spec: the full `process(text, context)` pipeline
(sections 2, 4.5): classify, extract, dispatch, and assemble the
`NLPResponse` envelope with `should_speak = true`.  The pseudo-random draw of
the lifestyle-tip handler is modelled by the explicit `rand` input. -/
def process (text : String) (ctx : ConversationContext) (rand : Nat) : NLPResponse :=
  let ic := classify text
  let entities := extract text
  let h := handleIntent ic.1 entities ctx rand
  { intent := ic.1
    confidence := ic.2
    entities := entities
    response_text := h.1
    suggested_actions := h.2.1
    should_speak := true
    priority := h.2.2 }

/-- The spec's fixed closed intent set (section 3). -/
def intentSet : List String :=
  ["show_risk", "explain_results", "start_assessment", "health_tips",
   "medication_reminder", "emergency_help", "next_question", "repeat_last",
   "lifestyle_tips", "unknown"]

end NLP

section Helpers

/-- Utility: `Char.ofNat` of a valid code point has that code point. -/
theorem toNat_ofNat_of_valid {n : Nat} (h : n.isValidChar) : (Char.ofNat n).toNat = n := by
  rw [Char.ofNat, dif_pos h]; rfl

/-- Utility: `Char.toLower` is idempotent. -/
theorem toLower_toLower (c : Char) : c.toLower.toLower = c.toLower := by
  unfold Char.toLower
  by_cases h : c.toNat ≥ 65 ∧ c.toNat ≤ 90
  · rw [if_pos h]
    have hv : (c.toNat + 32).isValidChar := Or.inl (by omega)
    have ht : (Char.ofNat (c.toNat + 32)).toNat = c.toNat + 32 := toNat_ofNat_of_valid hv
    rw [if_neg (by omega)]
  · rw [if_neg h, if_neg h]

/-- Utility: characters above code point 64 are not whitespace. -/
theorem isWhitespace_eq_false_of_toNat {c : Char} (h : 64 < c.toNat) :
    c.isWhitespace = false := by
  unfold Char.isWhitespace
  have h1 : c ≠ ' ' := fun he => by
    have := congrArg Char.toNat he
    rw [show (' ' : Char).toNat = 32 from rfl] at this; omega
  have h2 : c ≠ '\t' := fun he => by
    have := congrArg Char.toNat he
    rw [show ('\t' : Char).toNat = 9 from rfl] at this; omega
  have h3 : c ≠ '\r' := fun he => by
    have := congrArg Char.toNat he
    rw [show ('\r' : Char).toNat = 13 from rfl] at this; omega
  have h4 : c ≠ '\n' := fun he => by
    have := congrArg Char.toNat he
    rw [show ('\n' : Char).toNat = 10 from rfl] at this; omega
  simp [h1, h2, h3, h4]

/-- Utility: lower-casing preserves whitespace-ness. -/
theorem isWhitespace_toLower (c : Char) : c.toLower.isWhitespace = c.isWhitespace := by
  unfold Char.toLower
  by_cases h : c.toNat ≥ 65 ∧ c.toNat ≤ 90
  · rw [if_pos h]
    have hv : (c.toNat + 32).isValidChar := Or.inl (by omega)
    have ht : (Char.ofNat (c.toNat + 32)).toNat = c.toNat + 32 := toNat_ofNat_of_valid hv
    rw [isWhitespace_eq_false_of_toNat (by omega),
      isWhitespace_eq_false_of_toNat (c := c) (by omega)]
  · rw [if_neg h]

/-- Utility: lower-casing a list twice equals lower-casing it once. -/
theorem map_toLower_map_toLower (cs : List Char) :
    (cs.map Char.toLower).map Char.toLower = cs.map Char.toLower := by
  rw [List.map_map]
  exact List.map_congr_left (fun c _ => toLower_toLower c)

/-- Utility: lower-casing commutes with dropping leading whitespace. -/
theorem dropWhile_ws_map (cs : List Char) :
    (cs.map Char.toLower).dropWhile Char.isWhitespace =
      (cs.dropWhile Char.isWhitespace).map Char.toLower := by
  rw [List.dropWhile_map]
  congr 1
  exact congrArg (fun p => cs.dropWhile p) (funext isWhitespace_toLower)

/-- Utility: lower-casing commutes with dropping trailing whitespace. -/
theorem rdropWhile_ws_map (cs : List Char) :
    (cs.map Char.toLower).rdropWhile Char.isWhitespace =
      (cs.rdropWhile Char.isWhitespace).map Char.toLower := by
  unfold List.rdropWhile
  rw [← List.map_reverse, dropWhile_ws_map, List.map_reverse]

/-- Utility: lower-casing commutes with trimming. -/
theorem trimChars_map_toLower (cs : List Char) :
    NLP.trimChars (cs.map Char.toLower) = (NLP.trimChars cs).map Char.toLower := by
  unfold NLP.trimChars
  rw [dropWhile_ws_map, rdropWhile_ws_map]

/-- Utility: the head of a list equals the head of a nonempty prefix. -/
theorem get_zero_of_append {α} {l₁ l₂ l : List α} (h : l₁ ++ l₂ = l)
    (h1 : 0 < l₁.length) (h2 : 0 < l.length) : l.get ⟨0, h2⟩ = l₁.get ⟨0, h1⟩ := by
  subst h
  cases l₁ with
  | nil => exact absurd h1 (by simp)
  | cons a t => rfl

/-- Utility: a trimmed list has no leading whitespace left to drop. -/
theorem dropWhile_rdropWhile_dropWhile {α} (p : α → Bool) (l : List α) :
    ((l.dropWhile p).rdropWhile p).dropWhile p = (l.dropWhile p).rdropWhile p := by
  rw [List.dropWhile_eq_self_iff]
  intro hl
  obtain ⟨t, ht⟩ := List.rdropWhile_prefix p (l.dropWhile p)
  have hd : 0 < (l.dropWhile p).length := by
    rw [← ht, List.length_append]
    omega
  rw [show ((l.dropWhile p).rdropWhile p).get ⟨0, hl⟩ =
      (l.dropWhile p).get ⟨0, hd⟩ from (get_zero_of_append ht hl hd).symm ▸ rfl]
  exact List.dropWhile_get_zero_not p l hd

/-- Utility: trimming is idempotent. -/
theorem trimChars_idem (cs : List Char) :
    NLP.trimChars (NLP.trimChars cs) = NLP.trimChars cs := by
  unfold NLP.trimChars
  rw [dropWhile_rdropWhile_dropWhile, List.rdropWhile_idempotent]

/-- Utility: the spec's normalization is idempotent. -/
theorem normalizeChars_idem (cs : List Char) :
    NLP.normalizeChars (NLP.normalizeChars cs) = NLP.normalizeChars cs := by
  unfold NLP.normalizeChars
  rw [← trimChars_map_toLower, map_toLower_map_toLower, trimChars_idem]

/-- Utility: when a member of the list satisfies the predicate, `find?`
returns the first satisfying element: everything before it fails. -/
theorem find?_split_of_exists {α} (p : α → Bool) {l : List α}
    (h : ∃ a ∈ l, p a = true) :
    ∃ b pre post, l.find? p = some b ∧ p b = true ∧ l = pre ++ b :: post ∧
      ∀ a ∈ pre, p a = false := by
  cases hf : l.find? p with
  | none =>
    obtain ⟨a, ha, hpa⟩ := h
    exact absurd hpa (by simpa using List.find?_eq_none.mp hf a ha)
  | some b =>
    obtain ⟨hpb, pre, post, hsplit, hpre⟩ := List.find?_eq_some.mp hf
    exact ⟨b, pre, post, rfl, hpb, hsplit, fun a ha => by simpa using hpre a ha⟩

/-- Utility: `getD` at an in-range index is a member of the list. -/
theorem getD_mem_of_lt {α} (l : List α) (i : Nat) (d : α) (h : i < l.length) :
    l.getD i d ∈ l := by
  induction l generalizing i with
  | nil => simp at h
  | cons a t ih =>
    cases i with
    | zero => simp [List.getD]
    | succ n =>
      simp only [List.getD_cons_succ]
      exact List.mem_cons_of_mem a (ih n (by simpa using h))

/-- Utility: the priority component of the dispatcher does not depend on the
random draw. -/
theorem handleIntent_rand_priority (i : String) (e : List (String × String))
    (c : NLP.ConversationContext) (r₁ r₂ : Nat) :
    (NLP.handleIntent i e c r₁).2.2 = (NLP.handleIntent i e c r₂).2.2 := by
  unfold NLP.handleIntent
  split_ifs <;> rfl

/-- Utility: outside the lifestyle-tips handler, the response text does not
depend on the random draw. -/
theorem handleIntent_rand_text (i : String) (e : List (String × String))
    (c : NLP.ConversationContext) (r₁ r₂ : Nat) (h : i ≠ "lifestyle_tips") :
    (NLP.handleIntent i e c r₁).1 = (NLP.handleIntent i e c r₂).1 := by
  unfold NLP.handleIntent
  split_ifs <;> rfl

end Helpers

/-- C1: for every transcript, intent classification iterates the static
ordered rule table and the first rule whose pattern matches wins: the matched
command satisfies its pattern, every rule before it in the table fails, and
any other matching rule is the matched one or appears after it. -/
theorem c1_first_match_wins (t : String) (c' : EnhancedVoiceUI.VoiceCommand)
    (hmem : c' ∈ EnhancedVoiceUI.voiceCommands)
    (hmatch : patTest c'.pattern t = true) :
    ∃ c pre post,
      EnhancedVoiceUI.matchedCommand t = some c ∧
      patTest c.pattern t = true ∧
      EnhancedVoiceUI.voiceCommands = pre ++ c :: post ∧
      (∀ d ∈ pre, patTest d.pattern t = false) ∧
      (c' = c ∨ c' ∈ post) := by
  obtain ⟨b, pre, post, hfind, hpb, hsplit, hpre⟩ :=
    find?_split_of_exists (fun cmd => patTest cmd.pattern t) ⟨c', hmem, hmatch⟩
  refine ⟨b, pre, post, hfind, hpb, hsplit, hpre, ?_⟩
  have hm : c' ∈ pre ++ b :: post := hsplit ▸ hmem
  rcases List.mem_append.mp hm with h | h
  · exact absurd hmatch (by simp [hpre c' h])
  · rcases List.mem_cons.mp h with h | h
    · exact Or.inl h
    · exact Or.inr h

/-- C1 witness: "what does my risk score mean" matches both the show_risk
rule (`what.*risk`) and the later explain_results rule (`what.*mean`); the
earlier show_risk rule wins. -/
theorem c1_witness :
    ∃ c pre post,
      EnhancedVoiceUI.matchedCommand "what does my risk score mean" = some c ∧
      patTest c.pattern "what does my risk score mean" = true ∧
      EnhancedVoiceUI.voiceCommands = pre ++ c :: post ∧
      (∀ d ∈ pre, patTest d.pattern "what does my risk score mean" = false) ∧
      (EnhancedVoiceUI.voiceCommands.get ⟨2, by decide⟩ = c ∨
        EnhancedVoiceUI.voiceCommands.get ⟨2, by decide⟩ ∈ post) :=
  c1_first_match_wins "what does my risk score mean"
    (EnhancedVoiceUI.voiceCommands.get ⟨2, by decide⟩)
    (EnhancedVoiceUI.voiceCommands.get_mem 2 (by decide)) (by decide)

/-- C5 counterexample: the transcript "pause" is classified as the intent
"stop_listening", which is not a member of the spec's fixed closed intent
set. -/
theorem c5_intent_set_counterexample :
    (NLP.process "pause" NLP.emptyContext 0).intent = "stop_listening" ∧
    "stop_listening" ∉ NLP.intentSet :=
  ⟨by decide, by decide⟩

/-- C5 (amended): every classified intent is a member of the spec's fixed
closed intent set extended with "stop_listening" (the ninth rule of the code
table); every request yields exactly one response since `process` is a total
function. -/
theorem c5_intent_closed_set_amended (t : String) (ctx : NLP.ConversationContext)
    (r : Nat) :
    (NLP.process t ctx r).intent ∈ NLP.intentSet ++ ["stop_listening"] := by
  show (NLP.classify t).1 ∈ _
  unfold NLP.classify
  cases hf : EnhancedVoiceUI.voiceCommands.find?
      (fun cmd => patMatch cmd.pattern (NLP.normalizeChars t.data)) with
  | none => decide
  | some cmd =>
    have hc : cmd ∈ EnhancedVoiceUI.voiceCommands := List.mem_of_find?_eq_some hf
    have hall : ∀ c ∈ EnhancedVoiceUI.voiceCommands,
        c.action ∈ NLP.intentSet ++ ["stop_listening"] := by decide
    exact hall cmd hc

/-- C6: for every input text that matches no rule in the pattern table, the
classified intent is "unknown" with the low fixed confidence (at most 0.5),
and the response is the generic clarifying question — a handled no-match
outcome, never an error, for every context and random draw. -/
theorem c6_no_match_unknown (t : String) (ctx : NLP.ConversationContext) (r : Nat)
    (h : ∀ cmd ∈ EnhancedVoiceUI.voiceCommands,
      patMatch cmd.pattern (NLP.normalizeChars t.data) = false) :
    (NLP.process t ctx r).intent = "unknown" ∧
    (NLP.process t ctx r).confidence = NLP.unknownConfidence ∧
    NLP.unknownConfidence ≤ 1 / 2 ∧
    (NLP.process t ctx r).response_text = EnhancedVoiceUI.genericHelpResponse ∧
    containsSub (w "?") EnhancedVoiceUI.genericHelpResponse.data = true := by
  have hf : EnhancedVoiceUI.voiceCommands.find?
      (fun cmd => patMatch cmd.pattern (NLP.normalizeChars t.data)) = none :=
    List.find?_eq_none.mpr (fun x hx => by simp [h x hx])
  have hclass : NLP.classify t = ("unknown", NLP.unknownConfidence) := by
    unfold NLP.classify
    rw [hf]
  refine ⟨?_, ?_, by norm_num [NLP.unknownConfidence], ?_, by decide⟩
  · show (NLP.classify t).1 = "unknown"
    rw [hclass]
  · show (NLP.classify t).2 = NLP.unknownConfidence
    rw [hclass]
  · show (NLP.handleIntent (NLP.classify t).1 (NLP.extract t) ctx r).1 = _
    rw [hclass]
    rfl

/-- C6 witness: "asdfasdf" matches no rule of the table and yields the
unknown intent with the low confidence and the clarifying question. -/
theorem c6_witness :
    (NLP.process "asdfasdf" NLP.emptyContext 0).intent = "unknown" ∧
    (NLP.process "asdfasdf" NLP.emptyContext 0).confidence = NLP.unknownConfidence ∧
    NLP.unknownConfidence ≤ 1 / 2 ∧
    (NLP.process "asdfasdf" NLP.emptyContext 0).response_text =
      EnhancedVoiceUI.genericHelpResponse ∧
    containsSub (w "?") EnhancedVoiceUI.genericHelpResponse.data = true :=
  c6_no_match_unknown "asdfasdf" NLP.emptyContext 0 (by decide)

/-- C8: the lifestyle tip contained in the response is always a member of
the fixed enumerated tip list, for both tip handlers, and the response text
embeds exactly the selected tip. -/
theorem c8_tip_membership (r : Nat) :
    EnhancedVoiceUI.selectedLifestyleTip r ∈ EnhancedVoiceUI.lifestyleTips ∧
    EnhancedVoiceUI.provideLifestyleTips r =
      "Here\x27s a personalized health tip: " ++ EnhancedVoiceUI.selectedLifestyleTip r ++
      " Would you like more specific advice for your situation?" ∧
    VoiceAssistant.selectedPersonalizedTip r ∈ VoiceAssistant.personalizedTips ∧
    VoiceAssistant.getPersonalizedTips r =
      "Here\x27s a personalized tip: " ++ VoiceAssistant.selectedPersonalizedTip r ++
      ". Would you like more specific advice for your risk profile?" := by
  refine ⟨?_, rfl, ?_, rfl⟩
  · exact getD_mem_of_lt _ _ _ (Nat.mod_lt _ (by decide))
  · exact getD_mem_of_lt _ _ _ (Nat.mod_lt _ (by decide))

/-- C9: classification is invariant under the spec's normalization:
classifying a text and classifying its lower-cased trimmed normalization
yield the same (intent, confidence) pair. -/
theorem c9_classify_normalization_invariant (s : String) :
    NLP.classify s = NLP.classify (NLP.normalizeText s) := by
  unfold NLP.classify
  rw [show (NLP.normalizeText s).data = NLP.normalizeChars s.data from rfl,
    normalizeChars_idem]

/-- C2: for every text matching the emergency pattern and every context
(including the empty one), the emergency_help handler yields critical
priority, a response instructing the user to call emergency services (911),
and a non-empty suggested_actions list containing "emergency_contact"; the
frontend emergency action emits the same instruction plus a high-severity
alert, and processing "I need emergency help" through the full pipeline is
classified emergency_help with critical priority for every context. -/
theorem c2_emergency_help_contract (t : String) (ctx : NLP.ConversationContext)
    (r : Nat) (st : EnhancedVoiceUI.VoiceState)
    (_hemg : patTest EnhancedVoiceUI.emergencyPattern t = true) :
    (NLP.handleIntent "emergency_help" (NLP.extract t) ctx r).2.2 = NLP.Priority.critical ∧
    containsSub (w "call 911")
      (NLP.handleIntent "emergency_help" (NLP.extract t) ctx r).1.data = true ∧
    (NLP.handleIntent "emergency_help" (NLP.extract t) ctx r).2.1 ≠ [] ∧
    "emergency_contact" ∈ (NLP.handleIntent "emergency_help" (NLP.extract t) ctx r).2.1 ∧
    (∀ (ctx' : NLP.ConversationContext) (r' : Nat),
      (NLP.process "I need emergency help" ctx' r').intent = "emergency_help" ∧
      (NLP.process "I need emergency help" ctx' r').priority = NLP.Priority.critical ∧
      (NLP.process "I need emergency help" ctx' r').suggested_actions ≠ []) ∧
    EnhancedVoiceUI.executeVoiceAction "emergency_help" t st =
      [EnhancedVoiceUI.Event.say EnhancedVoiceUI.emergencyResponse,
       EnhancedVoiceUI.Event.healthAlert "Emergency resources available if needed" "high" "emergency"] := by
  refine ⟨rfl, ?_, ?_, ?_, fun ctx' r' => ⟨rfl, rfl, ?_⟩, rfl⟩
  · show containsSub (w "call 911") EnhancedVoiceUI.emergencyResponse.data = true
    decide
  · exact List.cons_ne_nil _ _
  · exact List.mem_cons_self _ _
  · exact List.cons_ne_nil _ _

/-- C2 witness: instantiation at "I need emergency help" with the empty
context. -/
theorem c2_witness :
    (NLP.handleIntent "emergency_help" (NLP.extract "I need emergency help")
        NLP.emptyContext 0).2.2 = NLP.Priority.critical ∧
    (NLP.process "I need emergency help" NLP.emptyContext 0).priority =
      NLP.Priority.critical := by
  have h := c2_emergency_help_contract "I need emergency help" NLP.emptyContext 0
    ⟨none, [], 0⟩ (by decide)
  exact ⟨h.1, (h.2.2.2.2.1 NLP.emptyContext 0).2.1⟩

/-- C3: a show_risk request whose context lacks risk_data for the resolved
condition returns the graceful fallback instructing the user to start an
assessment — a total, defined result, never an error — and the frontend
`showCurrentRisk` uses the same fallback when no risk data is loaded. -/
theorem c3_show_risk_graceful (entities : List (String × String))
    (ctx : NLP.ConversationContext) (r : Nat)
    (h : NLP.lookupRisk ctx (NLP.resolvedCondition entities) = none) :
    NLP.handleIntent "show_risk" entities ctx r =
      (EnhancedVoiceUI.noRiskDataResponse, [], NLP.Priority.medium) ∧
    containsSub (w "start a new assessment")
      EnhancedVoiceUI.noRiskDataResponse.data = true ∧
    EnhancedVoiceUI.showCurrentRisk none = EnhancedVoiceUI.noRiskDataResponse := by
  refine ⟨?_, by decide, rfl⟩
  show NLP.handleShowRisk entities ctx = _
  unfold NLP.handleShowRisk
  rw [h]

/-- C3 witness: no entities and the empty context. -/
theorem c3_witness :
    NLP.handleIntent "show_risk" [] NLP.emptyContext 0 =
      (EnhancedVoiceUI.noRiskDataResponse, [], NLP.Priority.medium) :=
  (c3_show_risk_graceful [] NLP.emptyContext 0 rfl).1

/-- C4: processing identical (text, context) twice yields identical intent,
confidence, entities and priority whatever the random draws; the response
text can differ only for the lifestyle_tips intent, whose handler samples
from the fixed tip list. -/
theorem c4_process_deterministic (t : String) (ctx : NLP.ConversationContext)
    (r₁ r₂ : Nat) :
    (NLP.process t ctx r₁).intent = (NLP.process t ctx r₂).intent ∧
    (NLP.process t ctx r₁).confidence = (NLP.process t ctx r₂).confidence ∧
    (NLP.process t ctx r₁).entities = (NLP.process t ctx r₂).entities ∧
    (NLP.process t ctx r₁).priority = (NLP.process t ctx r₂).priority ∧
    ((NLP.process t ctx r₁).intent ≠ "lifestyle_tips" →
      (NLP.process t ctx r₁).response_text = (NLP.process t ctx r₂).response_text) :=
  ⟨rfl, rfl, rfl, handleIntent_rand_priority _ _ _ _ _,
    fun h => handleIntent_rand_text _ _ _ _ _ h⟩

/-- C4 witness: instantiation at a non-lifestyle input with two different
random draws. -/
theorem c4_witness :
    (NLP.process "hello" NLP.emptyContext 0).intent =
      (NLP.process "hello" NLP.emptyContext 7).intent ∧
    (NLP.process "hello" NLP.emptyContext 0).response_text =
      (NLP.process "hello" NLP.emptyContext 7).response_text := by
  have h := c4_process_deterministic "hello" NLP.emptyContext 0 7
  exact ⟨h.1, h.2.2.2.2 (by decide)⟩

/-- C7: the entity extractor returns at most one condition entity (with a
value from the fixed vocabulary) and at most one severity entity, every key
is condition or severity (absent keys are simply omitted), and extracting
"What is my heart attack risk?" yields exactly the heart_attack condition. -/
theorem c7_entity_extractor (s : String) :
    (NLP.extract s).countP (fun e => e.1 == "condition") ≤ 1 ∧
    (NLP.extract s).countP (fun e => e.1 == "severity") ≤ 1 ∧
    (∀ v, ("condition", v) ∈ NLP.extract s →
      v ∈ ["heart_attack", "stroke", "heart_failure", "arrhythmia"]) ∧
    (∀ e ∈ NLP.extract s, e.1 = "condition" ∨ e.1 = "severity") ∧
    NLP.extract "What is my heart attack risk?" = [("condition", "heart_attack")] := by
  have hvoc : ∀ p ∈ NLP.conditionKeywords,
      p.2 ∈ ["heart_attack", "stroke", "heart_failure", "arrhythmia"] := by decide
  have hform : NLP.extract s = [] ∨
      (∃ kw ∈ NLP.conditionKeywords, NLP.extract s = [("condition", kw.2)]) ∨
      (∃ kw ∈ NLP.severityKeywords, NLP.extract s = [("severity", kw.2)]) ∨
      (∃ kw ∈ NLP.conditionKeywords, ∃ kw' ∈ NLP.severityKeywords,
        NLP.extract s = [("condition", kw.2), ("severity", kw'.2)]) := by
    rcases hc : NLP.conditionKeywords.find?
        (fun kw => containsSub kw.1.data (s.data.map Char.toLower)) with _ | kw <;>
      rcases hs : NLP.severityKeywords.find?
          (fun kw => containsSub kw.1.data (s.data.map Char.toLower)) with _ | kw'
    · exact Or.inl (by simp [NLP.extract, hc, hs])
    · exact Or.inr (Or.inr (Or.inl ⟨kw', List.mem_of_find?_eq_some hs,
        by simp [NLP.extract, hc, hs]⟩))
    · exact Or.inr (Or.inl ⟨kw, List.mem_of_find?_eq_some hc,
        by simp [NLP.extract, hc, hs]⟩)
    · exact Or.inr (Or.inr (Or.inr ⟨kw, List.mem_of_find?_eq_some hc,
        kw', List.mem_of_find?_eq_some hs, by simp [NLP.extract, hc, hs]⟩))
  rcases hform with h | ⟨kw, hkw, h⟩ | ⟨kw, hkw, h⟩ | ⟨kw, hkw, kw', hkw', h⟩ <;>
    rw [h] <;> refine ⟨?_, ?_, ?_, ?_, by decide⟩
  · simp
  · simp
  · simp
  · simp
  · simp
  · simp
  · intro v hv
    have hveq : v = kw.2 := by simpa using hv
    exact hveq ▸ hvoc kw hkw
  · intro e he
    have he' : e = ("condition", kw.2) := by simpa using he
    subst he'
    exact Or.inl rfl
  · simp
  · simp
  · intro v hv
    exact absurd hv (by simp)
  · intro e he
    have he' : e = ("severity", kw.2) := by simpa using he
    subst he'
    exact Or.inr rfl
  · simp
  · simp
  · intro v hv
    have hveq : v = kw.2 := by simpa using hv
    exact hveq ▸ hvoc kw hkw
  · intro e he
    rcases (by simpa using he : e = ("condition", kw.2) ∨ e = ("severity", kw'.2)) with
      h1 | h1 <;> subst h1
    · exact Or.inl rfl
    · exact Or.inr rfl

/-- C7 witness: the concrete extraction from the spec's example phrase. -/
theorem c7_witness :
    NLP.extract "What is my heart attack risk?" = [("condition", "heart_attack")] :=
  (c7_entity_extractor "What is my heart attack risk?").2.2.2.2

/-- C10: in the voice-assistant matcher a transcript matches a registered
command when either string contains the other; a transcript that is a
substring of some registered command phrase is matched, the executed command
is the first related one in the list, and the conversational query handler
is not reached. -/
theorem c10_substring_match (t : String)
    (h : ∃ c ∈ VoiceAssistant.voiceCommands, VoiceAssistant.strIncludes c.command t = true) :
    ∃ cmd pre post,
      VoiceAssistant.matchedCommand t = some cmd ∧
      (VoiceAssistant.strIncludes t cmd.command ||
        VoiceAssistant.strIncludes cmd.command t) = true ∧
      VoiceAssistant.voiceCommands = pre ++ cmd :: post ∧
      (∀ d ∈ pre, (VoiceAssistant.strIncludes t d.command ||
        VoiceAssistant.strIncludes d.command t) = false) ∧
      VoiceAssistant.processVoiceCommand t =
        VoiceAssistant.ProcessResult.executed cmd ("Executing: " ++ cmd.description) := by
  obtain ⟨c, hc, hinc⟩ := h
  obtain ⟨b, pre, post, hfind, hpb, hsplit, hpre⟩ :=
    find?_split_of_exists
      (fun cmd => VoiceAssistant.strIncludes t cmd.command ||
        VoiceAssistant.strIncludes cmd.command t)
      ⟨c, hc, by simp [hinc]⟩
  refine ⟨b, pre, post, hfind, hpb, hsplit, hpre, ?_⟩
  unfold VoiceAssistant.processVoiceCommand
  rw [show VoiceAssistant.matchedCommand t = some b from hfind]

/-- C10 witness: the bare word "start" is a substring of the registered
command "start assessment" and triggers that command instead of the
conversational handler. -/
theorem c10_witness :
    ∃ cmd pre post,
      VoiceAssistant.matchedCommand "start" = some cmd ∧
      (VoiceAssistant.strIncludes "start" cmd.command ||
        VoiceAssistant.strIncludes cmd.command "start") = true ∧
      VoiceAssistant.voiceCommands = pre ++ cmd :: post ∧
      (∀ d ∈ pre, (VoiceAssistant.strIncludes "start" d.command ||
        VoiceAssistant.strIncludes d.command "start") = false) ∧
      VoiceAssistant.processVoiceCommand "start" =
        VoiceAssistant.ProcessResult.executed cmd ("Executing: " ++ cmd.description) :=
  c10_substring_match "start"
    ⟨VoiceAssistant.voiceCommands.get ⟨0, by decide⟩,
      VoiceAssistant.voiceCommands.get_mem 0 (by decide), by decide⟩
